import Mathlib

/-!
Shallow embedding of `HyperlaneRegistration/main.py`.

The program drives, for each account, an eligibility-check-and-claim workflow
against a remote claim service:
- `HyperLaneRegistration.__init__` stores the private key, derives the address,
  normalizes the proxy (prepends "http://" when present) and stores the id;
- `create_message` builds an EIP-712 typed message and signs it;
- `check_eligible` (wrapped by the `async_error_handler` retry decorator)
  performs the GET check-eligibility, GET get-registration-for-address and
  POST save-registration calls and decides the terminal outcome;
- `start_work` guards the `check_eligible()` call with try/except, logging
  failures with the account id;
- `main` runs one task per account under an `asyncio.Semaphore`.

External library facts (address derivation from a secret key, the ECDSA
signing primitive over the encoded typed data) are not code of this
repository; they enter the embedding as explicit function parameters
(`derive`, `signPrim`).  Network responses enter as an explicit environment.
Each workflow run is recorded as a trace of network/sign events so that
call-counting and call-payload claims can be stated.
-/

namespace HyperlaneReg

/-- One entry of `response.eligibilities` in the check-eligibility response
(only the `amount` field is read by the program, at main.py line 120). -/
structure Eligibility where
  amount : String
deriving Repr, DecidableEq

/-- The `response` object of the GET check-eligibility reply
(fields read at main.py lines 119-120). -/
structure EligResponse where
  isEligible : Bool
  eligibilities : List Eligibility
deriving Repr, DecidableEq

/-- The remote service's answers for one address: the check-eligibility
response, the `message` field of the get-registration reply (line 127) and
the `validationResult.success` field of the save-registration reply
(line 154). -/
structure Env where
  elig : EligResponse
  regMessage : String
  submitSuccess : Bool
deriving Repr, DecidableEq

/-- State of one `HyperLaneRegistration` instance after `__init__`
(main.py lines 33-38): private key, derived address, normalized proxy, id. -/
structure Worker where
  private_key : String
  address : String
  proxy : Option String
  id : Nat
deriving Repr, DecidableEq

/-- `HyperLaneRegistration.__init__` (main.py lines 33-38).  `derive` stands
for the external `Account.from_key(...).address` derivation.  Line 36:
`self.proxy = f"http://{proxy}" if proxy is not None else None`. -/
def mkWorker (derive : String → String) (private_key : String)
    (proxy : Option String) (number_acc : Nat) : Worker :=
  { private_key := private_key
    address := derive private_key
    proxy := proxy.map (fun p => "http://" ++ p)
    id := number_acc }

/-- One `{"name": ..., "type": ...}` entry of the EIP-712 `types` lists. -/
structure TypedField where
  name : String
  type : String
deriving Repr, DecidableEq

/-- The typed-data dictionary built by `create_message`
(main.py lines 42-89), flattened field by field. -/
structure TypedMessage where
  domainName : String
  domainVersion : String
  msgEligibleAddress : String
  msgChainId : String
  msgAmount : String
  msgReceivingAddress : String
  msgTokenType : String
  primaryType : String
  typesEIP712Domain : List TypedField
  typesMessage : List TypedField
deriving Repr, DecidableEq

/-- The `message` dictionary literal of `create_message`
(main.py lines 42-89) for a given address and amount. -/
def full_message (address amount : String) : TypedMessage :=
  { domainName := "Hyperlane"
    domainVersion := "1"
    msgEligibleAddress := address
    msgChainId := "10"
    msgAmount := amount
    msgReceivingAddress := address
    msgTokenType := "HYPER"
    primaryType := "Message"
    typesEIP712Domain := [⟨"name", "string"⟩, ⟨"version", "string"⟩]
    typesMessage :=
      [⟨"eligibleAddress", "string"⟩, ⟨"chainId", "uint256"⟩,
       ⟨"amount", "string"⟩, ⟨"receivingAddress", "string"⟩,
       ⟨"tokenType", "string"⟩] }

/-- `create_message` (main.py lines 40-92): build the typed message for the
worker's own address and the given amount, then sign it with the worker's
private key.  `signPrim` stands for the external
`Account.sign_message(encode_typed_data(full_message=...), key).signature.hex()`
primitive, a pure function of the message and the key. -/
def create_message (signPrim : TypedMessage → String → String)
    (w : Worker) (amount : String) : String :=
  signPrim (full_message w.address amount) w.private_key

/-- One wallet entry of the save-registration POST body
(main.py lines 139-147). -/
structure Wallet where
  eligibleAddress : String
  chainId : Nat
  eligibleAddressType : String
  receivingAddress : String
  signature : String
  tokenType : String
  amount : String
deriving Repr, DecidableEq

/-- Externally visible actions of one `check_eligible` attempt: the three
HTTP requests (each carrying the proxy argument passed to the client) and
the signer invocation. -/
inductive Event where
  | getEligibility (address : String) (proxy : Option String)
  | getRegistration (address : String) (proxy : Option String)
  | signCall (amount : String)
  | postRegistration (wallets : List Wallet) (proxy : Option String)
deriving Repr, DecidableEq

/-- Terminal outcome of one `check_eligible` attempt, matching the four
terminal log lines (main.py lines 128, 155, 158, 161). -/
inductive Outcome where
  | notEligible
  | alreadyRegistered
  | registeredSuccess
  | registeredFailure
deriving Repr, DecidableEq

/-- Body of `check_eligible` (main.py lines 95-161), one attempt, without
the retry decorator: returns the event trace and the terminal outcome, or an
error when the program would raise (`eligibilities[0]` on an empty list,
line 120). -/
def check_eligible_body (signPrim : TypedMessage → String → String)
    (w : Worker) (env : Env) : Except String (List Event × Outcome) :=
  let ev0 := Event.getEligibility w.address w.proxy
  if env.elig.isEligible then
    match env.elig.eligibilities.head? with
    | none => Except.error "list index out of range"
    | some e =>
      let amount := e.amount
      let ev1 := Event.getRegistration w.address w.proxy
      if env.regMessage = "Success" then
        Except.ok ([ev0, ev1], Outcome.alreadyRegistered)
      else
        let signature := create_message signPrim w amount
        let wallet : Wallet :=
          { eligibleAddress := w.address
            chainId := 10
            eligibleAddressType := "ethereum"
            receivingAddress := w.address
            signature := "0x" ++ signature
            tokenType := "HYPER"
            amount := amount }
        let evs := [ev0, ev1, Event.signCall amount,
                    Event.postRegistration [wallet] w.proxy]
        if env.submitSuccess then
          Except.ok (evs, Outcome.registeredSuccess)
        else
          Except.ok (evs, Outcome.registeredFailure)
  else
    Except.ok ([ev0], Outcome.notEligible)

/-- Result of a call wrapped by `async_error_handler` (main.py lines 15-29):
either the wrapped function's value, or the sentinel `0` returned after the
last failed attempt (line 24), or the implicit `None` of a loop over zero
attempts. -/
inductive RetryResult (α : Type) where
  | ok (a : α)
  | sentinel
  | implicitNone
deriving Repr, DecidableEq

/-- Observable behaviour of one wrapped call: its result, the
`logger.error` lines emitted (line 22), and the `asyncio.sleep` durations
awaited between attempts (line 25). -/
structure RetryTrace (α : Type) where
  result : RetryResult α
  errorLogs : List String
  sleeps : List Nat
deriving Repr, DecidableEq

/-- The `for i in range(0, retries)` loop of `async_error_handler`
(main.py lines 18-25), run from index `i` with `fuel` iterations left.
`attempt i` is the body's behaviour on attempt `i`. -/
def retryFrom (error_msg : String) (attempt : Nat → Except String α) :
    Nat → Nat → RetryTrace α
  | _, 0 => ⟨RetryResult.implicitNone, [], []⟩
  | i, fuel + 1 =>
    match attempt i with
    | Except.ok a => ⟨RetryResult.ok a, [], []⟩
    | Except.error e =>
      let log := error_msg ++ ": " ++ e
      match fuel with
      | 0 => ⟨RetryResult.sentinel, [log], []⟩
      | fuel' + 1 =>
        let rest := retryFrom error_msg attempt (i + 1) (fuel' + 1)
        ⟨rest.result, log :: rest.errorLogs, 2 :: rest.sleeps⟩

/-- `async_error_handler(error_msg, retries)` applied to a function whose
attempt behaviours are `attempt` (main.py lines 15-29). -/
def async_error_handler (error_msg : String) (retries : Nat)
    (attempt : Nat → Except String α) : RetryTrace α :=
  retryFrom error_msg attempt 0 retries

/-- The decorated `check_eligible` (main.py line 94:
`@async_error_handler('check_eligible')`, default `retries=3`): every
attempt replays the body against the same environment. -/
def check_eligible (signPrim : TypedMessage → String → String)
    (w : Worker) (env : Env) : RetryTrace (List Event × Outcome) :=
  async_error_handler "check_eligible" 3 (fun _ => check_eligible_body signPrim w env)

/-- Is the event a signer invocation? -/
def Event.isSignCall : Event → Bool
  | Event.signCall _ => true
  | _ => false

/-- Is the event the save-registration POST? -/
def Event.isPost : Event → Bool
  | Event.postRegistration _ _ => true
  | _ => false

/-- Is the event the get-registration GET? -/
def Event.isGetRegistration : Event → Bool
  | Event.getRegistration _ _ => true
  | _ => false

/-- The proxy argument an event passes to the HTTP client
(`none` for the signer invocation, which makes no request). -/
def Event.proxyArg : Event → Option (Option String)
  | Event.getEligibility _ p => some p
  | Event.getRegistration _ p => some p
  | Event.postRegistration _ p => some p
  | Event.signCall _ => none

/-- Is the character a lowercase hexadecimal digit (0-9 or a-f)? -/
def isLowerHexChar (c : Char) : Bool :=
  (48 ≤ c.toNat && c.toNat ≤ 57) || (97 ≤ c.toNat && c.toNat ≤ 102)

/-- Is the string made only of lowercase hexadecimal digits? -/
def isLowerHexString (s : String) : Bool :=
  s.data.all isLowerHexChar

/-- All wallet entries POSTed to save-registration in a trace. -/
def postedWallets (evs : List Event) : List Wallet :=
  evs.foldr
    (fun ev acc =>
      match ev with
      | Event.postRegistration ws _ => ws ++ acc
      | _ => acc)
    []

/-- `start_work` (main.py lines 164-173), after the semaphore is acquired.
Line 166 constructs the `HyperLaneRegistration` instance OUTSIDE the
try/except: a construction failure (`construct = error`, e.g. a malformed
private key rejected by `Account.from_key`) escapes `start_work`.
Lines 168-173 guard only the `check_eligible()` call: an exception `e`
raised by it is caught and logged as `ID account:{id_acc} Failed: {e}`.
Returns the error-log lines this task emits at the per-task boundary, or the
escaped exception. -/
def start_work (body : Worker → Except String Unit)
    (construct : Except String Worker) (id_acc : Nat) :
    Except String (List String) :=
  match construct with
  | Except.error e => Except.error e
  | Except.ok w =>
    match body w with
    | Except.ok _ => Except.ok []
    | Except.error e =>
      Except.ok ["ID account:" ++ toString id_acc ++ " Failed: " ++ e]

/-- The tasks of `main` (main.py lines 176-183) run in sequence (the
reference configuration uses `Semaphore(1)`, so tasks execute in creation
order): accounts are enumerated from `id_acc`, each task's per-task-boundary
logs are collected, and the first exception escaping a task is the one
`asyncio.gather` re-raises, after which no later task runs to completion. -/
def runTasks (body : Worker → Except String Unit) :
    Nat → List (Except String Worker) → List String × Option String
  | _, [] => ([], none)
  | id_acc, c :: rest =>
    match start_work body c id_acc with
    | Except.error e => ([], some e)
    | Except.ok logs =>
      let (ls, err) := runTasks body (id_acc + 1) rest
      (logs ++ ls, err)

/-- Observable result of the `__main__` block (main.py lines 186-202):
the per-task-boundary log lines and whether the completion banner
`The work completed` (line 201) was printed.  The banner line runs only if
`asyncio.run(main())` (line 199) returns without raising, i.e. only if no
task's exception escaped to `asyncio.gather`. -/
structure ScriptResult where
  logs : List String
  banner : Bool
deriving Repr, DecidableEq

/-- The `__main__` block from `asyncio.run(main())` on (main.py
lines 199-201): enumerate accounts from 1 (line 181 `start=1`), run all
tasks, print the banner iff no exception escaped a task. -/
def runScript (body : Worker → Except String Unit)
    (accounts : List (Except String Worker)) : ScriptResult :=
  let r := runTasks body 1 accounts
  { logs := r.1, banner := r.2.isNone }

/-! ### Admission gate (`asyncio.Semaphore`, main.py lines 164-165 and 177)

Cooperative-concurrency model of `async with semaphore` around the body of
`start_work`.  Each task is abstracted to the number of suspension-point
steps (network calls) it performs while holding a semaphore slot; a schedule
is the sequence of task indices the event loop picks.  A step of a waiting
task acquires a slot when one is available (and otherwise blocks, changing
nothing); a step of a task whose body is exhausted releases its slot — the
`async with` block releases on every exit path, normal or raising. -/

/-- Phase of one task with respect to the admission gate. -/
inductive Phase where
  | waiting (steps : Nat)
  | inside (steps : Nat)
  | done
deriving Repr, DecidableEq

/-- Does the task currently hold a semaphore slot? -/
def Phase.isInside : Phase → Bool
  | Phase.inside _ => true
  | _ => false

/-- Global state: one phase per task plus the semaphore's free-slot count. -/
structure Sem where
  tasks : List Phase
  avail : Nat
deriving Repr, DecidableEq

/-- Initial state for bound `K` (main.py line 177: `asyncio.Semaphore(1)`,
generalized) and the given task bodies. -/
def initSem (K : Nat) (bodies : List Nat) : Sem :=
  { tasks := bodies.map Phase.waiting, avail := K }

/-- One scheduler step giving control to task `t`. -/
def stepSem (s : Sem) (t : Nat) : Sem :=
  match s.tasks[t]? with
  | none => s
  | some (Phase.waiting steps) =>
    match s.avail with
    | 0 => s
    | a + 1 => { tasks := s.tasks.set t (Phase.inside steps), avail := a }
  | some (Phase.inside (steps + 1)) =>
    { tasks := s.tasks.set t (Phase.inside steps), avail := s.avail }
  | some (Phase.inside 0) =>
    { tasks := s.tasks.set t Phase.done, avail := s.avail + 1 }
  | some Phase.done => s

/-- Run a whole schedule from the initial state. -/
def runSem (K : Nat) (bodies : List Nat) (sched : List Nat) : Sem :=
  sched.foldl stepSem (initSem K bodies)

/-- Number of tasks currently holding a semaphore slot. -/
def insideCount (s : Sem) : Nat :=
  s.tasks.countP Phase.isInside

/-! ### Counting lemmas for the admission gate -/

/-- Replacing the element at a valid index changes `countP` by the
difference of the old and new elements' predicate values. -/
lemma countP_set_balance {α : Type} (p : α → Bool) :
    ∀ (l : List α) (n : Nat) (a b : α), l[n]? = some a →
      (l.set n b).countP p + (if p a then 1 else 0) =
        l.countP p + (if p b then 1 else 0) := by
  intro l
  induction l with
  | nil => intro n a b h; simp at h
  | cons x xs ih =>
    intro n a b h
    cases n with
    | zero =>
      simp only [List.getElem?_cons_zero] at h
      injection h with h
      subst h
      simp only [List.set, List.countP_cons]
      omega
    | succ m =>
      simp only [List.getElem?_cons_succ] at h
      have hm := ih m a b h
      simp only [List.set, List.countP_cons]
      omega

/-- Two distinct valid positions whose elements both satisfy the predicate
force `countP` to be at least 2. -/
lemma two_le_countP_of_two {α : Type} (p : α → Bool) :
    ∀ (l : List α) (i j : Nat) (a b : α), l[i]? = some a →
      l[j]? = some b → i ≠ j → p a = true → p b = true →
      2 ≤ l.countP p := by
  intro l
  induction l with
  | nil => intro i j a b h; simp at h
  | cons x xs ih =>
    intro i j a b hi hj hij hpa hpb
    cases i with
    | zero =>
      cases j with
      | zero => exact absurd rfl hij
      | succ m =>
        simp only [List.getElem?_cons_zero, List.getElem?_cons_succ] at hi hj
        injection hi with hi
        subst hi
        have hmem : b ∈ xs := List.getElem?_mem hj
        have hpos : 0 < xs.countP p := List.countP_pos_iff.mpr ⟨b, hmem, hpb⟩
        rw [List.countP_cons, if_pos hpa]
        omega
    | succ n =>
      cases j with
      | zero =>
        simp only [List.getElem?_cons_zero, List.getElem?_cons_succ] at hi hj
        injection hj with hj
        subst hj
        have hmem : a ∈ xs := List.getElem?_mem hi
        have hpos : 0 < xs.countP p := List.countP_pos_iff.mpr ⟨a, hmem, hpa⟩
        rw [List.countP_cons, if_pos hpb]
        omega
      | succ m =>
        simp only [List.getElem?_cons_succ] at hi hj
        have h2 := ih n m a b hi hj (fun hnm => hij (by rw [hnm])) hpa hpb
        simp only [List.countP_cons]
        omega

/-- One scheduler step preserves `free slots + slot holders`. -/
lemma stepSem_slot_balance (s : Sem) (t : Nat) :
    (stepSem s t).avail + insideCount (stepSem s t) = s.avail + insideCount s := by
  cases hg : s.tasks[t]? with
  | none => simp [stepSem, insideCount, hg]
  | some ph =>
    cases ph with
    | waiting steps =>
      cases ha : s.avail with
      | zero => simp [stepSem, insideCount, hg, ha]
      | succ a =>
        have hbal := countP_set_balance Phase.isInside s.tasks t
          (Phase.waiting steps) (Phase.inside steps) hg
        simp [Phase.isInside] at hbal
        simp [stepSem, insideCount, hg, ha]
        omega
    | inside steps =>
      cases steps with
      | zero =>
        have hbal := countP_set_balance Phase.isInside s.tasks t
          (Phase.inside 0) Phase.done hg
        simp [Phase.isInside] at hbal
        simp [stepSem, insideCount, hg]
        omega
      | succ k =>
        have hbal := countP_set_balance Phase.isInside s.tasks t
          (Phase.inside (k + 1)) (Phase.inside k) hg
        simp [Phase.isInside] at hbal
        simp [stepSem, insideCount, hg]
        omega
    | done => simp [stepSem, insideCount, hg]

/-- A whole schedule preserves `free slots + slot holders`. -/
lemma foldl_slot_balance (sched : List Nat) :
    ∀ s : Sem,
      (sched.foldl stepSem s).avail + insideCount (sched.foldl stepSem s) =
        s.avail + insideCount s := by
  induction sched with
  | nil => intro s; rfl
  | cons t rest ih =>
    intro s
    simp only [List.foldl]
    exact (ih (stepSem s t)).trans (stepSem_slot_balance s t)

/-- Initially no task holds a slot. -/
lemma insideCount_initSem (K : Nat) (bodies : List Nat) :
    insideCount (initSem K bodies) = 0 := by
  unfold insideCount initSem
  induction bodies with
  | nil => rfl
  | cons b rest ih =>
    rw [List.map_cons, List.countP_cons, if_neg (by simp [Phase.isInside])]
    exact ih

/-- In every reachable state, `free slots + slot holders = K`. -/
lemma runSem_slot_balance (K : Nat) (bodies : List Nat) (sched : List Nat) :
    (runSem K bodies sched).avail + insideCount (runSem K bodies sched) = K := by
  have h := foldl_slot_balance sched (initSem K bodies)
  rw [insideCount_initSem] at h
  simpa [runSem, initSem] using h

/-! ### Evaluation lemmas for the workflow paths -/

/-- A wrapped call whose first attempt succeeds returns that attempt's value
with no failure logs and no sleeps. -/
lemma async_error_handler_first_ok (msg : String) {α : Type}
    (attempt : Nat → Except String α) (a : α) (h : attempt 0 = Except.ok a) :
    async_error_handler msg 3 attempt = ⟨RetryResult.ok a, [], []⟩ := by
  unfold async_error_handler retryFrom
  rw [h]

/-- Body evaluation on the not-eligible path (main.py lines 160-161). -/
lemma check_body_not_eligible (signPrim : TypedMessage → String → String)
    (w : Worker) (env : Env) (hElig : env.elig.isEligible = false) :
    check_eligible_body signPrim w env =
      Except.ok ([Event.getEligibility w.address w.proxy], Outcome.notEligible) := by
  unfold check_eligible_body
  rw [hElig]
  rfl

/-- Body evaluation on the already-registered path (main.py lines 127-129). -/
lemma check_body_already_registered (signPrim : TypedMessage → String → String)
    (w : Worker) (env : Env) (e : Eligibility) (rest : List Eligibility)
    (hElig : env.elig.isEligible = true)
    (hAmt : env.elig.eligibilities = e :: rest)
    (hReg : env.regMessage = "Success") :
    check_eligible_body signPrim w env =
      Except.ok ([Event.getEligibility w.address w.proxy,
                  Event.getRegistration w.address w.proxy],
                 Outcome.alreadyRegistered) := by
  unfold check_eligible_body
  rw [hElig, hAmt, hReg]
  rfl

/-- Body evaluation on the sign-and-submit path (main.py lines 131-158). -/
lemma check_body_submit (signPrim : TypedMessage → String → String)
    (w : Worker) (env : Env) (e : Eligibility) (rest : List Eligibility)
    (hElig : env.elig.isEligible = true)
    (hAmt : env.elig.eligibilities = e :: rest)
    (hReg : env.regMessage ≠ "Success") :
    check_eligible_body signPrim w env =
      Except.ok ([Event.getEligibility w.address w.proxy,
                  Event.getRegistration w.address w.proxy,
                  Event.signCall e.amount,
                  Event.postRegistration
                    [{ eligibleAddress := w.address
                       chainId := 10
                       eligibleAddressType := "ethereum"
                       receivingAddress := w.address
                       signature := "0x" ++ create_message signPrim w e.amount
                       tokenType := "HYPER"
                       amount := e.amount }] w.proxy],
                 if env.submitSuccess then Outcome.registeredSuccess
                 else Outcome.registeredFailure) := by
  unfold check_eligible_body
  rw [hElig, hAmt]
  simp only [List.head?]
  rw [if_neg hReg]
  cases hs : env.submitSuccess <;> simp

/-! ### Claim theorems -/

/-- C1: for every account whose eligibility query returns `isEligible=true`
and whose registration-status query does not report already-registered, the
workflow (including its retry wrapper) performs exactly one sign invocation
and exactly one submission call, and the `amount` field of the submitted
claim equals `response.eligibilities[0].amount` from the eligibility
query. -/
theorem eligible_unregistered_one_sign_one_submit
    (signPrim : TypedMessage → String → String) (w : Worker) (env : Env)
    (e : Eligibility) (rest : List Eligibility)
    (hElig : env.elig.isEligible = true)
    (hAmt : env.elig.eligibilities = e :: rest)
    (hReg : env.regMessage ≠ "Success") :
    ∃ evs out,
      check_eligible signPrim w env = ⟨RetryResult.ok (evs, out), [], []⟩ ∧
      (evs.filter Event.isSignCall).length = 1 ∧
      (evs.filter Event.isPost).length = 1 ∧
      (postedWallets evs).map Wallet.amount = [e.amount] := by
  have hbody := check_body_submit signPrim w env e rest hElig hAmt hReg
  refine ⟨_, _, async_error_handler_first_ok _ _ _ hbody, ?_, ?_, ?_⟩ <;>
    simp [Event.isSignCall, Event.isPost, postedWallets, List.filter]

/-- C1 witness: a concrete eligible, unregistered account. -/
theorem eligible_unregistered_one_sign_one_submit_witness :
    ∃ evs out,
      check_eligible (fun _ _ => "f00d") ⟨"k", "0xA", none, 1⟩
          ⟨⟨true, [⟨"1000"⟩]⟩, "NotFound", true⟩ =
        ⟨RetryResult.ok (evs, out), [], []⟩ ∧
      (evs.filter Event.isSignCall).length = 1 ∧
      (evs.filter Event.isPost).length = 1 ∧
      (postedWallets evs).map Wallet.amount = ["1000"] :=
  eligible_unregistered_one_sign_one_submit (fun _ _ => "f00d")
    ⟨"k", "0xA", none, 1⟩ ⟨⟨true, [⟨"1000"⟩]⟩, "NotFound", true⟩
    ⟨"1000"⟩ [] rfl rfl (by decide)

/-- C4: if the eligibility query returns `isEligible=false`, the workflow
terminates with the NotEligible outcome having issued only the eligibility
request: no registration-status call, no submission call, no signer
invocation. -/
theorem not_eligible_stops_before_registration
    (signPrim : TypedMessage → String → String) (w : Worker) (env : Env)
    (hElig : env.elig.isEligible = false) :
    ∃ evs,
      check_eligible signPrim w env =
        ⟨RetryResult.ok (evs, Outcome.notEligible), [], []⟩ ∧
      evs = [Event.getEligibility w.address w.proxy] ∧
      (evs.filter Event.isGetRegistration).length = 0 ∧
      (evs.filter Event.isPost).length = 0 ∧
      (evs.filter Event.isSignCall).length = 0 := by
  have hbody := check_body_not_eligible signPrim w env hElig
  refine ⟨_, async_error_handler_first_ok _ _ _ hbody, rfl, ?_, ?_, ?_⟩ <;>
    simp [Event.isGetRegistration, Event.isPost, Event.isSignCall, List.filter]

/-- C4 witness: a concrete ineligible account. -/
theorem not_eligible_stops_before_registration_witness :
    ∃ evs,
      check_eligible (fun _ _ => "f00d") ⟨"k", "0xA", none, 1⟩
          ⟨⟨false, []⟩, "NotFound", true⟩ =
        ⟨RetryResult.ok (evs, Outcome.notEligible), [], []⟩ ∧
      evs = [Event.getEligibility "0xA" none] ∧
      (evs.filter Event.isGetRegistration).length = 0 ∧
      (evs.filter Event.isPost).length = 0 ∧
      (evs.filter Event.isSignCall).length = 0 :=
  not_eligible_stops_before_registration (fun _ _ => "f00d")
    ⟨"k", "0xA", none, 1⟩ ⟨⟨false, []⟩, "NotFound", true⟩ rfl

/-- C5: if the eligibility query returns `isEligible=true` and the
registration-status response's `message` equals "Success", the workflow
terminates with the AlreadyRegistered outcome without invoking the signer
and without a submission call. -/
theorem already_registered_stops_before_sign
    (signPrim : TypedMessage → String → String) (w : Worker) (env : Env)
    (e : Eligibility) (rest : List Eligibility)
    (hElig : env.elig.isEligible = true)
    (hAmt : env.elig.eligibilities = e :: rest)
    (hReg : env.regMessage = "Success") :
    ∃ evs,
      check_eligible signPrim w env =
        ⟨RetryResult.ok (evs, Outcome.alreadyRegistered), [], []⟩ ∧
      evs = [Event.getEligibility w.address w.proxy,
             Event.getRegistration w.address w.proxy] ∧
      (evs.filter Event.isSignCall).length = 0 ∧
      (evs.filter Event.isPost).length = 0 := by
  have hbody := check_body_already_registered signPrim w env e rest hElig hAmt hReg
  refine ⟨_, async_error_handler_first_ok _ _ _ hbody, rfl, ?_, ?_⟩ <;>
    simp [Event.isSignCall, Event.isPost, List.filter]

/-- C5 witness: a concrete eligible, already-registered account. -/
theorem already_registered_stops_before_sign_witness :
    ∃ evs,
      check_eligible (fun _ _ => "f00d") ⟨"k", "0xA", none, 1⟩
          ⟨⟨true, [⟨"1000"⟩]⟩, "Success", true⟩ =
        ⟨RetryResult.ok (evs, Outcome.alreadyRegistered), [], []⟩ ∧
      evs = [Event.getEligibility "0xA" none,
             Event.getRegistration "0xA" none] ∧
      (evs.filter Event.isSignCall).length = 0 ∧
      (evs.filter Event.isPost).length = 0 :=
  already_registered_stops_before_sign (fun _ _ => "f00d")
    ⟨"k", "0xA", none, 1⟩ ⟨⟨true, [⟨"1000"⟩]⟩, "Success", true⟩
    ⟨"1000"⟩ [] rfl rfl rfl

/-- C6: the structured authorization message built for signing has domain
`{name:"Hyperlane", version:"1"}`, the five-field message schema
(eligibleAddress:string, chainId:uint256, amount:string,
receivingAddress:string, tokenType:string), and a payload whose
eligibleAddress and receivingAddress both equal the account's own derived
address, with chainId "10", tokenType "HYPER" and the amount passed in;
`create_message` signs exactly this message with the account's key. -/
theorem typed_message_shape (derive : String → String)
    (signPrim : TypedMessage → String → String) (key : String)
    (proxy : Option String) (number_acc : Nat) (amount : String) :
    (full_message (mkWorker derive key proxy number_acc).address amount).domainName = "Hyperlane" ∧
    (full_message (mkWorker derive key proxy number_acc).address amount).domainVersion = "1" ∧
    (full_message (mkWorker derive key proxy number_acc).address amount).typesEIP712Domain =
      [⟨"name", "string"⟩, ⟨"version", "string"⟩] ∧
    (full_message (mkWorker derive key proxy number_acc).address amount).typesMessage =
      [⟨"eligibleAddress", "string"⟩, ⟨"chainId", "uint256"⟩,
       ⟨"amount", "string"⟩, ⟨"receivingAddress", "string"⟩,
       ⟨"tokenType", "string"⟩] ∧
    (full_message (mkWorker derive key proxy number_acc).address amount).msgEligibleAddress =
      (mkWorker derive key proxy number_acc).address ∧
    (full_message (mkWorker derive key proxy number_acc).address amount).msgReceivingAddress =
      (mkWorker derive key proxy number_acc).address ∧
    (full_message (mkWorker derive key proxy number_acc).address amount).msgChainId = "10" ∧
    (full_message (mkWorker derive key proxy number_acc).address amount).msgTokenType = "HYPER" ∧
    (full_message (mkWorker derive key proxy number_acc).address amount).msgAmount = amount ∧
    (mkWorker derive key proxy number_acc).address = derive key ∧
    create_message signPrim (mkWorker derive key proxy number_acc) amount =
      signPrim (full_message (mkWorker derive key proxy number_acc).address amount) key := by
  refine ⟨rfl, rfl, rfl, rfl, rfl, rfl, rfl, rfl, rfl, rfl, rfl⟩

/-- C7: the submission POSTs a one-element claim list (wrapped under the
`wallets` key by the postRegistration event) whose element has numeric
chainId 10, eligibleAddressType "ethereum", tokenType "HYPER" and a
signature equal to "0x" followed by the signing primitive's hex output
(lowercase hex whenever the primitive emits lowercase hex, as the
library's `.hex()` does); the run ends in RegisteredSuccess exactly when
the response's `validationResult.success` is true. -/
theorem submission_body_shape
    (signPrim : TypedMessage → String → String) (w : Worker) (env : Env)
    (e : Eligibility) (rest : List Eligibility)
    (hElig : env.elig.isEligible = true)
    (hAmt : env.elig.eligibilities = e :: rest)
    (hReg : env.regMessage ≠ "Success")
    (hHex : isLowerHexString (create_message signPrim w e.amount) = true) :
    ∃ evs out,
      check_eligible signPrim w env = ⟨RetryResult.ok (evs, out), [], []⟩ ∧
      postedWallets evs =
        [{ eligibleAddress := w.address
           chainId := 10
           eligibleAddressType := "ethereum"
           receivingAddress := w.address
           signature := "0x" ++ create_message signPrim w e.amount
           tokenType := "HYPER"
           amount := e.amount }] ∧
      (∀ wal ∈ postedWallets evs,
        wal.chainId = 10 ∧ wal.eligibleAddressType = "ethereum" ∧
        wal.tokenType = "HYPER" ∧
        ∃ sig, wal.signature = "0x" ++ sig ∧ isLowerHexString sig = true) ∧
      (out = Outcome.registeredSuccess ↔ env.submitSuccess = true) := by
  have hbody := check_body_submit signPrim w env e rest hElig hAmt hReg
  refine ⟨_, _, async_error_handler_first_ok _ _ _ hbody, ?_, ?_, ?_⟩
  · simp [postedWallets]
  · intro wal hw
    simp [postedWallets] at hw
    subst hw
    exact ⟨rfl, rfl, rfl, create_message signPrim w e.amount, rfl, hHex⟩
  · cases hs : env.submitSuccess <;> simp

/-- C7 witness: a concrete submission with a lowercase-hex signing
primitive and a successful validation result. -/
theorem submission_body_shape_witness :
    ∃ evs out,
      check_eligible (fun _ _ => "abc123") ⟨"k", "0xA", none, 1⟩
          ⟨⟨true, [⟨"1000"⟩]⟩, "NotFound", true⟩ =
        ⟨RetryResult.ok (evs, out), [], []⟩ ∧
      postedWallets evs =
        [{ eligibleAddress := "0xA"
           chainId := 10
           eligibleAddressType := "ethereum"
           receivingAddress := "0xA"
           signature := "0x" ++ create_message (fun _ _ => "abc123") ⟨"k", "0xA", none, 1⟩ "1000"
           tokenType := "HYPER"
           amount := "1000" }] ∧
      (∀ wal ∈ postedWallets evs,
        wal.chainId = 10 ∧ wal.eligibleAddressType = "ethereum" ∧
        wal.tokenType = "HYPER" ∧
        ∃ sig, wal.signature = "0x" ++ sig ∧ isLowerHexString sig = true) ∧
      (out = Outcome.registeredSuccess ↔ true = true) :=
  submission_body_shape (fun _ _ => "abc123") ⟨"k", "0xA", none, 1⟩
    ⟨⟨true, [⟨"1000"⟩]⟩, "NotFound", true⟩ ⟨"1000"⟩ []
    rfl rfl (by decide) (by decide)

/-- C8: signing is deterministic and depends only on the secret key, the
derived address and the amount: `create_message` agrees on two workers with
identical key and address, and two full runs (possibly differing in proxy,
id, extra eligibility entries and submission result) that reach submission
with the same amount submit byte-identical signatures. -/
theorem sign_deterministic
    (signPrim : TypedMessage → String → String) (w1 w2 : Worker)
    (env1 env2 : Env) (e1 e2 : Eligibility) (rest1 rest2 : List Eligibility)
    (hKey : w1.private_key = w2.private_key)
    (hAddr : w1.address = w2.address)
    (hAmtEq : e1.amount = e2.amount)
    (hE1 : env1.elig.isEligible = true)
    (hA1 : env1.elig.eligibilities = e1 :: rest1)
    (hR1 : env1.regMessage ≠ "Success")
    (hE2 : env2.elig.isEligible = true)
    (hA2 : env2.elig.eligibilities = e2 :: rest2)
    (hR2 : env2.regMessage ≠ "Success") :
    (∀ amount, create_message signPrim w1 amount = create_message signPrim w2 amount) ∧
    ∃ evs1 out1 evs2 out2,
      check_eligible signPrim w1 env1 = ⟨RetryResult.ok (evs1, out1), [], []⟩ ∧
      check_eligible signPrim w2 env2 = ⟨RetryResult.ok (evs2, out2), [], []⟩ ∧
      (postedWallets evs1).map Wallet.signature =
        (postedWallets evs2).map Wallet.signature := by
  have hsame : ∀ amount,
      create_message signPrim w1 amount = create_message signPrim w2 amount := by
    intro amount
    unfold create_message full_message
    rw [hKey, hAddr]
  have hbody1 := check_body_submit signPrim w1 env1 e1 rest1 hE1 hA1 hR1
  have hbody2 := check_body_submit signPrim w2 env2 e2 rest2 hE2 hA2 hR2
  refine ⟨hsame, _, _, _, _,
    async_error_handler_first_ok _ _ _ hbody1,
    async_error_handler_first_ok _ _ _ hbody2, ?_⟩
  simp [postedWallets, hAmtEq, hsame e2.amount]

/-- C8 witness: same key and address, different proxy, id, submission
result and eligibility tails give the same submitted signature. -/
theorem sign_deterministic_witness :
    (∀ amount,
      create_message (fun m k => k ++ m.msgAmount) ⟨"k", "0xA", none, 1⟩ amount =
        create_message (fun m k => k ++ m.msgAmount) ⟨"k", "0xA", some "http://p", 2⟩ amount) ∧
    ∃ evs1 out1 evs2 out2,
      check_eligible (fun m k => k ++ m.msgAmount) ⟨"k", "0xA", none, 1⟩
          ⟨⟨true, [⟨"5"⟩]⟩, "NotFound", true⟩ =
        ⟨RetryResult.ok (evs1, out1), [], []⟩ ∧
      check_eligible (fun m k => k ++ m.msgAmount) ⟨"k", "0xA", some "http://p", 2⟩
          ⟨⟨true, [⟨"5"⟩, ⟨"7"⟩]⟩, "Pending", false⟩ =
        ⟨RetryResult.ok (evs2, out2), [], []⟩ ∧
      (postedWallets evs1).map Wallet.signature =
        (postedWallets evs2).map Wallet.signature :=
  sign_deterministic (fun m k => k ++ m.msgAmount)
    ⟨"k", "0xA", none, 1⟩ ⟨"k", "0xA", some "http://p", 2⟩
    ⟨⟨true, [⟨"5"⟩]⟩, "NotFound", true⟩ ⟨⟨true, [⟨"5"⟩, ⟨"7"⟩]⟩, "Pending", false⟩
    ⟨"5"⟩ ⟨"5"⟩ [] [⟨"7"⟩]
    rfl rfl rfl rfl rfl (by decide) rfl rfl (by decide)

/-- C10: the constructor normalizes a supplied proxy by unconditionally
prepending "http://" and the worker passes that normalized proxy to all
three HTTP requests; with no proxy supplied, every request carries no
proxy. -/
theorem proxy_normalization (derive : String → String)
    (signPrim : TypedMessage → String → String) (key p : String)
    (number_acc : Nat) (env : Env)
    (e : Eligibility) (rest : List Eligibility)
    (hElig : env.elig.isEligible = true)
    (hAmt : env.elig.eligibilities = e :: rest)
    (hReg : env.regMessage ≠ "Success") :
    (mkWorker derive key (some p) number_acc).proxy = some ("http://" ++ p) ∧
    (mkWorker derive key none number_acc).proxy = none ∧
    (∃ evs out,
      check_eligible signPrim (mkWorker derive key (some p) number_acc) env =
        ⟨RetryResult.ok (evs, out), [], []⟩ ∧
      (evs.filter (fun ev => (Event.proxyArg ev).isSome)).length = 3 ∧
      ∀ ev ∈ evs, ∀ q, Event.proxyArg ev = some q → q = some ("http://" ++ p)) ∧
    (∃ evs out,
      check_eligible signPrim (mkWorker derive key none number_acc) env =
        ⟨RetryResult.ok (evs, out), [], []⟩ ∧
      ∀ ev ∈ evs, ∀ q, Event.proxyArg ev = some q → q = none) := by
  have hbody1 := check_body_submit signPrim (mkWorker derive key (some p) number_acc)
    env e rest hElig hAmt hReg
  have hbody2 := check_body_submit signPrim (mkWorker derive key none number_acc)
    env e rest hElig hAmt hReg
  refine ⟨rfl, rfl,
    ⟨_, _, async_error_handler_first_ok _ _ _ hbody1, ?_, ?_⟩,
    ⟨_, _, async_error_handler_first_ok _ _ _ hbody2, ?_⟩⟩
  · simp [Event.proxyArg, List.filter]
  · intro ev hev q hq
    simp at hev
    rcases hev with h | h | h | h <;> subst h <;>
      simp [Event.proxyArg, mkWorker] at hq <;> exact hq.symm
  · intro ev hev q hq
    simp at hev
    rcases hev with h | h | h | h <;> subst h <;>
      simp [Event.proxyArg, mkWorker] at hq <;> exact hq.symm

/-- C2: the retry wrapper retries on any error, up to 3 attempts, with a
fixed delay of 2 time units between attempts, logging each failure; if
attempts 1 and 2 raise and attempt 3 succeeds, the result is the attempt-3
value preceded by exactly 2 logged failures; if all 3 attempts raise, the
result is the non-raising sentinel.  (The wrapper's total return type
`RetryTrace` itself embeds that no exception propagates past it.) -/
theorem retry_wrapper_behaviour (msg : String) :
    (∀ (α : Type) (attempt : Nat → Except String α) (e0 e1 : String) (v : α),
      attempt 0 = Except.error e0 → attempt 1 = Except.error e1 →
      attempt 2 = Except.ok v →
      async_error_handler msg 3 attempt =
        ⟨RetryResult.ok v, [msg ++ ": " ++ e0, msg ++ ": " ++ e1], [2, 2]⟩) ∧
    (∀ (α : Type) (attempt : Nat → Except String α) (e0 e1 e2 : String),
      attempt 0 = Except.error e0 → attempt 1 = Except.error e1 →
      attempt 2 = Except.error e2 →
      async_error_handler msg 3 attempt =
        ⟨RetryResult.sentinel,
         [msg ++ ": " ++ e0, msg ++ ": " ++ e1, msg ++ ": " ++ e2],
         [2, 2]⟩) := by
  constructor
  · intro α attempt e0 e1 v h0 h1 h2
    unfold async_error_handler retryFrom
    rw [h0]
    unfold retryFrom
    rw [h1]
    unfold retryFrom
    rw [h2]
  · intro α attempt e0 e1 e2 h0 h1 h2
    unfold async_error_handler retryFrom
    rw [h0]
    unfold retryFrom
    rw [h1]
    unfold retryFrom
    rw [h2]

/-- C2 witness: concrete attempt behaviours, failing twice then succeeding,
and failing three times. -/
theorem retry_wrapper_behaviour_witness :
    async_error_handler "check_eligible" 3
        (fun i => if i = 2 then Except.ok 7 else Except.error "boom") =
      ⟨RetryResult.ok 7,
       ["check_eligible: boom", "check_eligible: boom"], [2, 2]⟩ ∧
    async_error_handler "check_eligible" 3
        (fun _ => (Except.error "down" : Except String Nat)) =
      ⟨RetryResult.sentinel,
       ["check_eligible: down", "check_eligible: down", "check_eligible: down"],
       [2, 2]⟩ :=
  ⟨(retry_wrapper_behaviour "check_eligible").1 Nat
      (fun i => if i = 2 then Except.ok 7 else Except.error "boom")
      "boom" "boom" 7 rfl rfl rfl,
   (retry_wrapper_behaviour "check_eligible").2 Nat
      (fun _ => Except.error "down") "down" "down" "down" rfl rfl rfl⟩

/-- Specification-side description of the per-task-boundary failure logs:
one `ID account:{i} Failed: {e}` line for each account, enumerated from
`i`, whose workflow call raised `e`. -/
def specPerTaskFailureLogs (body : Worker → Except String Unit) :
    Nat → List Worker → List String
  | _, [] => []
  | i, w :: rest =>
    match body w with
    | Except.ok _ => specPerTaskFailureLogs body (i + 1) rest
    | Except.error e =>
      ("ID account:" ++ toString i ++ " Failed: " ++ e) ::
        specPerTaskFailureLogs body (i + 1) rest

/-- When every construction succeeds, running the tasks from any start
index catches every workflow exception at the per-task boundary, logging it
with the account's sequence id, and no exception escapes. -/
lemma runTasks_all_ok (body : Worker → Except String Unit) :
    ∀ (ws : List Worker) (i : Nat),
      runTasks body i (ws.map Except.ok) =
        (specPerTaskFailureLogs body i ws, none) := by
  intro ws
  induction ws with
  | nil => intro i; rfl
  | cons w rest ih =>
    intro i
    unfold runTasks specPerTaskFailureLogs start_work
    cases hb : body w <;> simp [hb, ih (i + 1)]

/-- C3 counterexample: the claim promises the completion banner regardless
of individual failures, but a single account whose construction raises
(e.g. a malformed private key rejected by `Account.from_key` at main.py
line 166, outside the try/except of lines 168-173) escapes the per-task
boundary and the banner of line 201 is not printed. -/
theorem construction_failure_skips_banner :
    (runScript (fun _ => Except.ok ()) [Except.error "malformed private key"]).banner
      = false := by
  rfl

/-- C3 amended: provided every account's worker construction succeeds, any
exception escaping an account's workflow call is caught and logged at the
per-task boundary with that account's sequence id, sibling tasks are
unaffected (every account is processed and contributes exactly its own
failure line, if any), and the batch prints the completion banner; an
exception raised during worker construction, by contrast, escapes the
per-task boundary and suppresses the banner. -/
theorem per_task_catch_logs_and_banner
    (body : Worker → Except String Unit) (ws : List Worker) :
    (runScript body (ws.map Except.ok)).banner = true ∧
    (runScript body (ws.map Except.ok)).logs = specPerTaskFailureLogs body 1 ws := by
  unfold runScript
  rw [runTasks_all_ok body ws 1]
  exact ⟨rfl, rfl⟩

/-- C3 witness: three accounts whose workflows respectively succeed, raise
and succeed; the failing one is logged with its sequence id 2 and the
banner is still printed. -/
theorem per_task_catch_logs_and_banner_witness :
    (runScript (fun w => if w.address = "0xB" then Except.error "boom" else Except.ok ())
        ([⟨"k1", "0xA", none, 1⟩, ⟨"k2", "0xB", none, 2⟩,
          ⟨"k3", "0xC", none, 3⟩].map Except.ok)).banner = true ∧
    (runScript (fun w => if w.address = "0xB" then Except.error "boom" else Except.ok ())
        ([⟨"k1", "0xA", none, 1⟩, ⟨"k2", "0xB", none, 2⟩,
          ⟨"k3", "0xC", none, 3⟩].map Except.ok)).logs =
      ["ID account:2 Failed: boom"] := by
  have h := per_task_catch_logs_and_banner
    (fun w => if w.address = "0xB" then Except.error "boom" else Except.ok ())
    [⟨"k1", "0xA", none, 1⟩, ⟨"k2", "0xB", none, 2⟩, ⟨"k3", "0xC", none, 3⟩]
  exact ⟨h.1, h.2.trans (by decide)⟩

/-- C10 witness: a concrete proxied and unproxied run. -/
theorem proxy_normalization_witness :
    (mkWorker (fun _ => "0xA") "k" (some "1.2.3.4:8080") 1).proxy =
      some ("http://" ++ "1.2.3.4:8080") ∧
    (mkWorker (fun _ => "0xA") "k" none 1).proxy = none ∧
    (∃ evs out,
      check_eligible (fun _ _ => "f00d") (mkWorker (fun _ => "0xA") "k" (some "1.2.3.4:8080") 1)
          ⟨⟨true, [⟨"1000"⟩]⟩, "NotFound", true⟩ =
        ⟨RetryResult.ok (evs, out), [], []⟩ ∧
      (evs.filter (fun ev => (Event.proxyArg ev).isSome)).length = 3 ∧
      ∀ ev ∈ evs, ∀ q, Event.proxyArg ev = some q → q = some ("http://" ++ "1.2.3.4:8080")) ∧
    (∃ evs out,
      check_eligible (fun _ _ => "f00d") (mkWorker (fun _ => "0xA") "k" none 1)
          ⟨⟨true, [⟨"1000"⟩]⟩, "NotFound", true⟩ =
        ⟨RetryResult.ok (evs, out), [], []⟩ ∧
      ∀ ev ∈ evs, ∀ q, Event.proxyArg ev = some q → q = none) :=
  proxy_normalization (fun _ => "0xA") (fun _ _ => "f00d") "k" "1.2.3.4:8080" 1
    ⟨⟨true, [⟨"1000"⟩]⟩, "NotFound", true⟩ ⟨"1000"⟩ [] rfl rfl (by decide)

/-- C9: for every schedule of the cooperative event loop, the admission
gate keeps `free slots + slot holders` constant at the bound `K`; hence at
most `K` workflows hold the admission resource simultaneously; with `K = 1`
no two distinct tasks are ever simultaneously in the inside (slot-holding)
phase — and since every network call of `start_work`'s body executes in the
inside phase, no two account workflows run overlapping network calls; and
when all tasks are done every slot has been released (`avail = K`),
reflecting that `async with semaphore` releases on every exit path. -/
theorem semaphore_admission_bound (K : Nat) (bodies : List Nat)
    (sched : List Nat) :
    (runSem K bodies sched).avail + insideCount (runSem K bodies sched) = K ∧
    insideCount (runSem K bodies sched) ≤ K ∧
    (K = 1 → ∀ (i j : Nat) (phi phj : Phase),
      (runSem K bodies sched).tasks[i]? = some phi →
      (runSem K bodies sched).tasks[j]? = some phj →
      i ≠ j → ¬(Phase.isInside phi = true ∧ Phase.isInside phj = true)) ∧
    ((∀ ph ∈ (runSem K bodies sched).tasks, ph = Phase.done) →
      (runSem K bodies sched).avail = K) := by
  have hbal := runSem_slot_balance K bodies sched
  refine ⟨hbal, by omega, ?_, ?_⟩
  · intro hK i j phi phj hgi hgj hij hboth
    obtain ⟨hpi, hpj⟩ := hboth
    have h2 : 2 ≤ (runSem K bodies sched).tasks.countP Phase.isInside :=
      two_le_countP_of_two Phase.isInside (runSem K bodies sched).tasks
        i j phi phj hgi hgj hij hpi hpj
    have h2' : 2 ≤ insideCount (runSem K bodies sched) := h2
    omega
  · intro hall
    have hz : insideCount (runSem K bodies sched) = 0 := by
      unfold insideCount
      rw [List.countP_eq_zero]
      intro a ha
      rw [hall a ha]
      simp [Phase.isInside]
    omega

/-- C9 witness: with bound 1 and two tasks, after task 0 acquires the slot
and task 1 is scheduled, task 1 is still blocked outside (no overlap), and
a schedule that drives both tasks to completion leaves the slot free. -/
theorem semaphore_admission_bound_witness :
    ((runSem 1 [1, 1] [0, 1]).avail + insideCount (runSem 1 [1, 1] [0, 1]) = 1) ∧
    ¬(Phase.isInside (Phase.inside 1) = true ∧
      Phase.isInside (Phase.waiting 1) = true) ∧
    (runSem 1 [1, 1] [0, 0, 0, 1, 1, 1]).avail = 1 := by
  refine ⟨(semaphore_admission_bound 1 [1, 1] [0, 1]).1, ?_, ?_⟩
  · exact (semaphore_admission_bound 1 [1, 1] [0, 1]).2.2.1 rfl 0 1
      (Phase.inside 1) (Phase.waiting 1) (by decide) (by decide) (by decide)
  · exact (semaphore_admission_bound 1 [1, 1] [0, 0, 0, 1, 1, 1]).2.2.2 (by decide)

end HyperlaneReg
